import Mathlib

/-!
Verification of the mathematica-mcp logging bootstrap.

This file shallowly embeds the two source files of the repository:

* `src/mathematica_mcp/logger.py` — the LoggerBootstrap module, which at
  module load time removes loguru's default console handler (`logger.remove(0)`)
  and adds a rotating file sink
  (`logger.add(__name__.split(".")[0] + ".log", rotation="500 MB", level="DEBUG")`).
* `tests/test_logger.py` — the smoke test, which imports the configured
  logger and calls `logger.info("Testing Loguru logging functionality")`.

The parts of the external loguru library that the bootstrap exercises are
embedded faithfully from loguru's documented semantics: a logger holds a
map of numbered handlers (the pristine logger has one console handler with
id 0 at level DEBUG); `remove(i)` deletes the handler with id `i` and
raises `ValueError` when no such handler exists; `add` opens the target
file (raising `OSError` when the path is not writable) and registers a new
handler under the next fresh id; a record at severity `s` is written by a
handler iff `s` is at least the handler's minimum level; size rotation
`"500 MB"` parses to `500 * 1000^2` bytes and starts a new file segment
before any write that would push the current segment past that limit.
-/

namespace MathematicaMcp

/-- Loguru severity levels (loguru defines TRACE below DEBUG). -/
inductive Level where
  | trace
  | debug
  | info
  | success
  | warning
  | error
  | critical
deriving DecidableEq, Repr

/-- Numeric severity of each level, as fixed by loguru
(TRACE=5, DEBUG=10, INFO=20, SUCCESS=25, WARNING=30, ERROR=40, CRITICAL=50). -/
def Level.severity : Level → Nat
  | .trace => 5
  | .debug => 10
  | .info => 20
  | .success => 25
  | .warning => 30
  | .error => 40
  | .critical => 50

/-- The level name as it appears in a formatted log line. -/
def Level.name : Level → String
  | .trace => "TRACE"
  | .debug => "DEBUG"
  | .info => "INFO"
  | .success => "SUCCESS"
  | .warning => "WARNING"
  | .error => "ERROR"
  | .critical => "CRITICAL"

/-- The on-disk state of one rotating file sink: the finished (archived)
segments, oldest first, and the segment currently being appended to,
together with its size in bytes. -/
structure FileState where
  archived : List (List String)
  current : List String
  currentSize : Nat
deriving DecidableEq, Repr

/-- A freshly opened log file: no archived segments, empty current segment. -/
def FileState.empty : FileState := ⟨[], [], 0⟩

/-- The destination of a handler: loguru's default stderr console sink
(its emitted lines tracked), or a file sink at a path. -/
inductive SinkDest where
  | console (written : List String)
  | file (path : String) (state : FileState)
deriving DecidableEq, Repr

/-- A registered loguru handler: its numeric id, destination, minimum
severity, and optional size-rotation limit in bytes. -/
structure Handler where
  id : Nat
  dest : SinkDest
  minLevel : Nat
  rotationLimit : Option Nat
deriving DecidableEq, Repr

/-- The process-wide loguru logger: the registered handlers and the next
fresh handler id. -/
structure LoggerState where
  handlers : List Handler
  nextId : Nat
deriving DecidableEq, Repr

/-- Errors the embedded operations can raise: loguru's
`ValueError("There is no existing handler with id ...")` from `remove`,
and the `OSError` from opening an unwritable file path in `add`. -/
inductive LogError where
  | valueError
  | osError
deriving DecidableEq, Repr

/-- The pristine loguru logger before any configuration: exactly one
pre-installed handler, id 0, writing to the stderr console at minimum
level DEBUG, with no rotation; the next id to be handed out is 1. -/
def loguruDefaultState : LoggerState :=
  { handlers := [{ id := 0, dest := .console [], minLevel := Level.debug.severity,
                   rotationLimit := none }],
    nextId := 1 }

/-- `logger.remove(i)`: delete the handler with id `i`; loguru raises
`ValueError` when no handler with that id exists. -/
def removeHandler (s : LoggerState) (i : Nat) : Except LogError LoggerState :=
  if s.handlers.any (fun h => h.id = i) then
    Except.ok { s with handlers := s.handlers.filter (fun h => h.id ≠ i) }
  else
    Except.error LogError.valueError

/-- `logger.add(path, rotation=…, level=…)`: open the file at `path`
(`writable` is the outcome of that `open`; loguru opens eagerly, so an
unwritable path raises `OSError` here) and register a fresh file handler
under the next id. -/
def addFileSink (s : LoggerState) (path : String) (rotation : Option Nat)
    (minLevel : Nat) (writable : Bool) : Except LogError LoggerState :=
  if writable then
    Except.ok
      { handlers := s.handlers ++
          [{ id := s.nextId, dest := .file path FileState.empty,
             minLevel := minLevel, rotationLimit := rotation }],
        nextId := s.nextId + 1 }
  else
    Except.error LogError.osError

/-- Write one formatted line to a rotating file: loguru's size rotation
starts a new segment before any write that would push the current segment
past the limit (`file.tell() + len(message) > size_limit`), archiving the
old segment; otherwise the line is appended to the current segment. -/
def FileState.write (fs : FileState) (rotation : Option Nat) (line : String) :
    FileState :=
  let len := line.utf8ByteSize
  match rotation with
  | none => { fs with current := fs.current ++ [line], currentSize := fs.currentSize + len }
  | some limit =>
      if fs.currentSize + len > limit then
        { archived := fs.archived ++ [fs.current], current := [line], currentSize := len }
      else
        { fs with current := fs.current ++ [line], currentSize := fs.currentSize + len }

/-- Pad a level name to width 8 with spaces, as loguru's default format
`{level: <8}` does. -/
def padLevel (name : String) : String :=
  name ++ String.mk (List.replicate (8 - name.length) ' ')

/-- Loguru's default line format
`{time:…} | {level: <8} | {name}:{function}:{line} - {message}` followed by
a newline; the runtime timestamp and source location are parameters. -/
def formatLine (timeStr loc : String) (level : Level) (msg : String) : String :=
  timeStr ++ " | " ++ padLevel level.name ++ " | " ++ loc ++ " - " ++ msg ++ "\n"

/-- Deliver one formatted line to a handler's destination. -/
def Handler.write (h : Handler) (line : String) : Handler :=
  match h.dest with
  | .console written => { h with dest := .console (written ++ [line]) }
  | .file path fs => { h with dest := .file path (fs.write h.rotationLimit line) }

/-- A leveled logging call (`logger.info`, `logger.debug`, …): every
handler whose minimum level is at most the record's severity writes the
formatted line; the others are untouched. -/
def logMsg (s : LoggerState) (level : Level) (timeStr loc : String)
    (msg : String) : LoggerState :=
  { s with handlers := s.handlers.map (fun h =>
      if h.minLevel ≤ level.severity then h.write (formatLine timeStr loc level msg)
      else h) }

/-- `name.split(".")[0]` for a Python string: the prefix up to the first
dot (the whole string when it has no dot). -/
def pySplitDotHead (name : String) : String :=
  String.mk (name.toList.takeWhile (fun c => c ≠ '.'))

/-- Loguru's `parse_size("500 MB")`: decimal units, so 500 · 1000² bytes. -/
def parsedRotation : Nat := 500 * 1000 * 1000

/-- The top-level package name of the repository. -/
def packageName : String := "mathematica_mcp"

/-- The `__name__` of `logger.py` when imported as part of the package. -/
def importedModuleName : String := "mathematica_mcp.logger"

/-- LoggerBootstrap: the module-level side effect of
`src/mathematica_mcp/logger.py` run with runtime module name
`moduleName` against logger state `start`:
`logger.remove(0)` then
`logger.add(__name__.split(".")[0] + ".log", rotation="500 MB", level="DEBUG")`.
`writable` is whether the computed log path can be opened for append. -/
def initLogger (moduleName : String) (writable : Bool) (start : LoggerState) :
    Except LogError LoggerState := do
  let s ← removeHandler start 0
  addFileSink s (pySplitDotHead moduleName ++ ".log") (some parsedRotation)
    Level.debug.severity writable

/-- Whether a handler is a console sink. -/
def Handler.isConsole (h : Handler) : Bool :=
  match h.dest with
  | .console _ => true
  | .file _ _ => false

/-- Whether a handler is a file sink. -/
def Handler.isFileSink (h : Handler) : Bool :=
  match h.dest with
  | .console _ => false
  | .file _ _ => true

/-- The paths of a logger's file sinks. -/
def LoggerState.filePaths (s : LoggerState) : List String :=
  s.handlers.filterMap (fun h =>
    match h.dest with
    | .console _ => none
    | .file path _ => some path)

/-- The file state of the handler with id `i`, when it is a file sink. -/
def LoggerState.fileStateOf (s : LoggerState) (i : Nat) : Option FileState :=
  s.handlers.findSome? (fun h =>
    if h.id = i then
      match h.dest with
      | .console _ => none
      | .file _ fs => some fs
    else none)

/-- The logger is configured as LoggerBootstrap leaves it: exactly one
handler, a rotating file sink (no console sink) with minimum level DEBUG
and the 500 MB rotation limit. -/
def configured (s : LoggerState) : Prop :=
  s.handlers.length = 1 ∧
  (∀ h ∈ s.handlers, h.isFileSink = true ∧ h.isConsole = false ∧
    h.minLevel = Level.debug.severity ∧ h.rotationLimit = some parsedRotation)

instance : DecidablePred configured := fun s => by
  unfold configured; infer_instance

/-- The logger state produced by a successful LoggerBootstrap run from the
pristine loguru state under the package import name: the single rotating
file handler at `mathematica_mcp.log`. -/
def bootState : LoggerState :=
  { handlers := [{ id := 1,
                   dest := .file "mathematica_mcp.log" FileState.empty,
                   minLevel := Level.debug.severity,
                   rotationLimit := some parsedRotation }],
    nextId := 2 }

/-- The bootstrap state with the file sink's on-disk state replaced:
the single rotating file handler at `mathematica_mcp.log`, its file in
state `fs`. -/
def bootStateWith (fs : FileState) : LoggerState :=
  { handlers := [{ id := 1,
                   dest := .file "mathematica_mcp.log" fs,
                   minLevel := Level.debug.severity,
                   rotationLimit := some parsedRotation }],
    nextId := 2 }

/-- The logger state produced by a successful LoggerBootstrap run from the
pristine loguru state under an arbitrary runtime module name. -/
def bootStateFor (moduleName : String) : LoggerState :=
  { handlers := [{ id := 1,
                   dest := .file (pySplitDotHead moduleName ++ ".log") FileState.empty,
                   minLevel := Level.debug.severity,
                   rotationLimit := some parsedRotation }],
    nextId := 2 }

/-- The `from mathematica_mcp.logger import logger` statement at the top of
`tests/test_logger.py`: running the test module first performs
LoggerBootstrap's module-level side effect against the pristine loguru
state; when it fails, the import (and hence the whole test module) fails
before any test body runs. -/
def smokeTestImport (writable : Bool) : Except LogError LoggerState :=
  initLogger importedModuleName writable loguruDefaultState

/-- The body of `test_loguru`:
`logger.info("Testing Loguru logging functionality")`. -/
def test_loguru (s : LoggerState) (timeStr loc : String) : LoggerState :=
  logMsg s Level.info timeStr loc "Testing Loguru logging functionality"

/-- Running the test module: the import side effect happens first; the
`test_loguru` body only ever executes on a state the import produced. -/
def smokeTestRun (writable : Bool) (timeStr loc : String) :
    Except LogError LoggerState := do
  let s ← smokeTestImport writable
  pure (test_loguru s timeStr loc)

/-! ### Helper lemmas -/

/-- A nonempty string encodes to at least one byte. -/
theorem utf8ByteSize_pos_of_ne_empty (s : String) (h : s ≠ "") :
    0 < s.utf8ByteSize := by
  cases s with
  | mk data =>
    cases data with
    | nil => exact absurd rfl h
    | cons c cs =>
        rw [String.utf8ByteSize_mk, String.utf8Len_cons]
        have := Char.utf8Size_pos c
        omega

/-- Writing a line to a fresh file leaves exactly that line in the current
segment, whatever the rotation limit. -/
theorem FileState.write_empty_current (rotation : Option Nat) (line : String) :
    (FileState.empty.write rotation line).current = [line] := by
  unfold FileState.write FileState.empty
  cases rotation with
  | none => rfl
  | some limit =>
      dsimp only
      split <;> rfl

/-- The character list of a formatted log line, decomposed into the lists
of its pieces. -/
theorem formatLine_data (timeStr loc : String) (level : Level) (msg : String) :
    (formatLine timeStr loc level msg).data =
      timeStr.data ++ " | ".data ++ level.name.data ++
        (String.mk (List.replicate (8 - level.name.length) ' ')).data ++
        " | ".data ++ loc.data ++ " - ".data ++ msg.data ++ "\n".data := by
  simp [formatLine, padLevel, String.data_append]

/-- The level name occurs in every formatted log line. -/
theorem levelName_infix_formatLine (timeStr loc : String) (level : Level)
    (msg : String) :
    level.name.data <:+: (formatLine timeStr loc level msg).data := by
  rw [formatLine_data]
  refine ⟨timeStr.data ++ " | ".data,
    (String.mk (List.replicate (8 - level.name.length) ' ')).data ++
      " | ".data ++ loc.data ++ " - ".data ++ msg.data ++ "\n".data, ?_⟩
  simp [List.append_assoc]

/-- The message occurs in every formatted log line. -/
theorem msg_infix_formatLine (timeStr loc : String) (level : Level)
    (msg : String) :
    msg.data <:+: (formatLine timeStr loc level msg).data := by
  rw [formatLine_data]
  refine ⟨timeStr.data ++ " | ".data ++ level.name.data ++
    (String.mk (List.replicate (8 - level.name.length) ' ')).data ++
    " | ".data ++ loc.data ++ " - ".data, "\n".data, ?_⟩
  simp [List.append_assoc]

/-! ### Claims -/

/-- C1 counterexample: the claim asserts initialization succeeds whether or
not the default pre-installed sink is present; but run against a logger
state with no handler of id 0 (default sink already removed),
LoggerBootstrap fails with loguru's `ValueError` from `logger.remove(0)`. -/
theorem C1_counterexample :
    initLogger importedModuleName true { handlers := [], nextId := 1 } =
      Except.error LogError.valueError := rfl

/-- C1 (amended): after LoggerBootstrap initialization from the library's
default state — which does contain the pre-installed sink, handler id 0 —
the logger has exactly one active sink, that sink is the rotating file
sink, and no console sink remains; the default sink is removed during
initialization. (Initialization requires the default sink to be present:
see the counterexample and C8.) -/
theorem C1_single_file_sink (moduleName : String) :
    ∃ s, initLogger moduleName true loguruDefaultState = Except.ok s ∧
      s.handlers.length = 1 ∧
      (∀ h ∈ s.handlers, h.isFileSink = true ∧ h.isConsole = false ∧
        h.rotationLimit = some parsedRotation) ∧
      (∀ h ∈ s.handlers, h.id ≠ 0) := by
  refine ⟨bootStateFor moduleName, rfl, rfl, ?_, ?_⟩
  · intro h hh
    rw [show (bootStateFor moduleName).handlers = [_] from rfl,
      List.mem_singleton] at hh
    subst hh
    exact ⟨rfl, rfl, rfl⟩
  · intro h hh
    rw [show (bootStateFor moduleName).handlers = [_] from rfl,
      List.mem_singleton] at hh
    subst hh
    exact Nat.one_ne_zero

/-- C2 counterexample: the claim asserts the sink path equals the owning
package's top-level name suffixed with ".log" for every initialization;
but when the module runs with `__name__ = "__main__"` (executed directly
as a script), initialization succeeds with sink path `__main__.log`, which
differs from `mathematica_mcp.log`. -/
theorem C2_counterexample :
    ∃ s, initLogger "__main__" true loguruDefaultState = Except.ok s ∧
      s.filePaths = ["__main__.log"] ∧
      ("__main__.log" : String) ≠ packageName ++ ".log" := by
  exact ⟨_, rfl, by decide, by decide⟩

/-- C2 (amended): for every initialization of LoggerBootstrap, the path of
the file sink added equals the first dot-separated component of the
module's runtime `__name__` suffixed with ".log"; when the module is
loaded as part of the package (`__name__ = "mathematica_mcp.logger"`)
this equals the top-level package name suffixed with ".log",
i.e. `mathematica_mcp.log`. -/
theorem C2_sink_path (moduleName : String) :
    (∃ s, initLogger moduleName true loguruDefaultState = Except.ok s ∧
      s.filePaths = [pySplitDotHead moduleName ++ ".log"]) ∧
    pySplitDotHead importedModuleName ++ ".log" = packageName ++ ".log" := by
  exact ⟨⟨_, rfl, rfl⟩, by decide⟩

/-- C6: if the computed log file path is not writable, LoggerBootstrap
initialization fails with the `OSError` raised by opening the file in
`logger.add`; the error is not caught, and no configured logger state is
exposed. -/
theorem C6_unwritable_path (moduleName : String) :
    initLogger moduleName false loguruDefaultState =
      Except.error LogError.osError ∧
    ∀ s, initLogger moduleName false loguruDefaultState ≠ Except.ok s := by
  exact ⟨rfl, fun s h => Except.noConfusion h⟩

/-- C8: LoggerBootstrap removes the handler with the fixed id 0, not "the
default sink if present": from any starting state in which no handler has
id 0, initialization raises `ValueError` instead of succeeding. -/
theorem C8_remove_fixed_id (moduleName : String) (writable : Bool)
    (start : LoggerState) (h : ∀ hd ∈ start.handlers, hd.id ≠ 0) :
    initLogger moduleName writable start = Except.error LogError.valueError := by
  unfold initLogger removeHandler
  rw [if_neg]
  · rfl
  · intro hany
    rw [List.any_eq_true] at hany
    obtain ⟨hd, hmem, hid⟩ := hany
    exact h hd hmem (by simpa using hid)

/-- C8 witness: a logger state with an empty handler list has no handler of
id 0, and initialization from it fails with `ValueError`. -/
theorem C8_witness :
    (∀ hd ∈ ({ handlers := [], nextId := 1 } : LoggerState).handlers,
      hd.id ≠ 0) ∧
    initLogger "mathematica_mcp.logger" true { handlers := [], nextId := 1 } =
      Except.error LogError.valueError :=
  ⟨by simp, C8_remove_fixed_id "mathematica_mcp.logger" true
    { handlers := [], nextId := 1 } (by simp)⟩

/-- C9: the log file path is derived from the module's runtime `__name__`:
loaded as part of the package it is `mathematica_mcp.log`, and executed
directly as a script (`__name__ = "__main__"`) it is `__main__.log`. -/
theorem C9_runtime_name :
    (∃ s, initLogger importedModuleName true loguruDefaultState =
        Except.ok s ∧ s.filePaths = ["mathematica_mcp.log"]) ∧
    (∃ s, initLogger "__main__" true loguruDefaultState = Except.ok s ∧
      s.filePaths = ["__main__.log"]) := by
  exact ⟨⟨_, rfl, by decide⟩, ⟨_, rfl, by decide⟩⟩

/-- C10: there is a severity level below DEBUG — loguru's TRACE — whose
records the configured sink filters out: logging at TRACE leaves the
initialized logger state (and hence the log file) unchanged. -/
theorem C10_trace_filtered (timeStr loc msg : String) :
    Level.trace.severity < Level.debug.severity ∧
    ∃ s, initLogger importedModuleName true loguruDefaultState =
        Except.ok s ∧
      logMsg s Level.trace timeStr loc msg = s := by
  refine ⟨by decide, bootState, rfl, ?_⟩
  rfl

/-- C3: after initialization, calling the shared logger's info-level
operation with any message appends to the log file a line containing the
message text and the level "INFO"; with the message
"Testing Loguru logging functionality" this is the `test_loguru` scenario. -/
theorem C3_info_appends_line (timeStr loc msg : String) :
    ∃ s, initLogger importedModuleName true loguruDefaultState =
        Except.ok s ∧
      ∃ fs, (logMsg s Level.info timeStr loc msg).fileStateOf 1 = some fs ∧
        ∃ line ∈ fs.current,
          "INFO".data <:+: line.data ∧ msg.data <:+: line.data := by
  refine ⟨bootState, rfl,
    FileState.empty.write (some parsedRotation)
      (formatLine timeStr loc Level.info msg), rfl,
    formatLine timeStr loc Level.info msg, ?_, ?_, ?_⟩
  · rw [FileState.write_empty_current]
    exact List.mem_singleton.mpr rfl
  · exact levelName_infix_formatLine timeStr loc Level.info msg
  · exact msg_infix_formatLine timeStr loc Level.info msg

/-- C5: the configured file sink's minimum severity is DEBUG, and every
record at severity DEBUG or above is written to the sink (its formatted
line lands in the file's current segment). -/
theorem C5_debug_min_level (level : Level) (timeStr loc msg : String)
    (hlev : Level.debug.severity ≤ level.severity) :
    ∃ s, initLogger importedModuleName true loguruDefaultState =
        Except.ok s ∧
      (∀ h ∈ s.handlers, h.minLevel = Level.debug.severity) ∧
      ∃ fs, (logMsg s level timeStr loc msg).fileStateOf 1 = some fs ∧
        formatLine timeStr loc level msg ∈ fs.current := by
  have hstate : logMsg bootState level timeStr loc msg =
      bootStateWith (FileState.empty.write (some parsedRotation)
        (formatLine timeStr loc level msg)) := by
    unfold logMsg bootState bootStateWith
    dsimp only [List.map_cons, List.map_nil]
    rw [if_pos hlev]
    rfl
  refine ⟨bootState, rfl, ?_, FileState.empty.write (some parsedRotation)
    (formatLine timeStr loc level msg), ?_, ?_⟩
  · intro h hh
    rw [show bootState.handlers = [_] from rfl, List.mem_singleton] at hh
    subst hh
    rfl
  · rw [hstate]
    rfl
  · rw [FileState.write_empty_current]
    exact List.mem_singleton.mpr rfl

/-- C5 witness: at level INFO (severity 20 ≥ DEBUG's 10) with concrete
timestamp, location and message, the record is written. -/
theorem C5_witness :
    Level.debug.severity ≤ Level.info.severity ∧
    ∃ s, initLogger importedModuleName true loguruDefaultState =
        Except.ok s ∧
      (∀ h ∈ s.handlers, h.minLevel = Level.debug.severity) ∧
      ∃ fs, (logMsg s Level.info "2026-10-12" "here" "hello").fileStateOf 1 =
          some fs ∧
        formatLine "2026-10-12" "here" Level.info "hello" ∈ fs.current :=
  ⟨by decide, C5_debug_min_level Level.info "2026-10-12" "here" "hello"
    (by decide)⟩

/-- C4: with the configured 500 MB limit, once the current log segment has
reached the limit, the next (nonempty) write starts a new segment, and
every line written before the rotation remains retrievable in the archived
prior segment. -/
theorem C4_rotation_at_limit (fs : FileState) (line : String)
    (hfull : parsedRotation ≤ fs.currentSize) (hline : line ≠ "") :
    (fs.write (some parsedRotation) line).current = [line] ∧
    (fs.write (some parsedRotation) line).archived =
      fs.archived ++ [fs.current] ∧
    ∀ l ∈ fs.current,
      ∃ seg ∈ (fs.write (some parsedRotation) line).archived, l ∈ seg := by
  have hlen : 0 < line.utf8ByteSize := utf8ByteSize_pos_of_ne_empty line hline
  have hgt : fs.currentSize + line.utf8ByteSize > parsedRotation := by omega
  unfold FileState.write
  dsimp only
  rw [if_pos hgt]
  refine ⟨rfl, rfl, ?_⟩
  intro l hl
  exact ⟨fs.current, by simp, hl⟩

/-- C4 witness: a file whose current segment holds one line and sits
exactly at the 500 MB limit rotates on the next write. -/
theorem C4_witness :
    parsedRotation ≤ (FileState.mk [] ["a"] parsedRotation).currentSize ∧
    ("b" : String) ≠ "" ∧
    ((FileState.mk [] ["a"] parsedRotation).write (some parsedRotation)
        "b").current = ["b"] ∧
    ((FileState.mk [] ["a"] parsedRotation).write (some parsedRotation)
        "b").archived = [] ++ [["a"]] :=
  ⟨Nat.le_refl _, by decide,
    (C4_rotation_at_limit (FileState.mk [] ["a"] parsedRotation) "b"
      (Nat.le_refl _) (by decide)).1,
    (C4_rotation_at_limit (FileState.mk [] ["a"] parsedRotation) "b"
      (Nat.le_refl _) (by decide)).2.1⟩

/-- C7: the module-level initialization performed by the import at the top
of the test module has completed before any SmokeTest body executes: every
logger state a test body can observe is one produced by a successful
LoggerBootstrap run, and such a state is fully configured (default sink
removed, rotating file sink added); when initialization fails, no test
body runs at all. -/
theorem C7_init_before_tests (writable : Bool) (s : LoggerState)
    (h : smokeTestImport writable = Except.ok s) :
    configured s ∧
    ∀ timeStr loc, smokeTestRun writable timeStr loc =
      Except.ok (test_loguru s timeStr loc) := by
  cases writable with
  | false => exact Except.noConfusion h
  | true =>
      have h' : Except.ok bootState = Except.ok s := h
      injection h' with h'
      subst h'
      exact ⟨by decide, fun timeStr loc => rfl⟩

/-- C7 witness: with a writable path, the import produces exactly the
configured bootstrap state and the test body runs on it. -/
theorem C7_witness :
    smokeTestImport true = Except.ok bootState ∧
    (configured bootState ∧
      ∀ timeStr loc, smokeTestRun true timeStr loc =
        Except.ok (test_loguru bootState timeStr loc)) :=
  ⟨rfl, C7_init_before_tests true bootState rfl⟩

end MathematicaMcp
